import Mathlib

/-!
Shallow embedding of `src/display_lidar_points/main.cpp` (Livox-SDK-ROS demo).

Machine integers are modelled as `Nat` with explicit reduction modulo
`2^32` (`uint32_t`) or `2^64` (`uint64_t`) at every operation where the C
code can overflow.  Floating-point coordinates (`x/1000.0f`) are modelled
as rationals; no claim inspects coordinate values, only their flow.
The point buffer is a total function `Nat → LivoxPoint` indexed by the
masked position, mirroring the fixed C array `buffer[BUFFER_POINTS]`.
-/

/-- `2^32`, the modulus of `uint32_t` arithmetic. -/
def U32 : Nat := 2 ^ 32

/-- `2^64`, the modulus of `uint64_t` arithmetic. -/
def U64 : Nat := 2 ^ 64

/-- `#define BUFFER_POINTS (32*1024)` — ring buffer capacity, a power of two. -/
def BUFFER_POINTS : Nat := 32 * 1024

/-- `#define POINTS_PER_FRAME 5000` — points popped per published frame. -/
def POINTS_PER_FRAME : Nat := 5000

/-- `#define PACKET_GAP_MISS_TIME (1500000)` — 1.5 ms loss-detection threshold. -/
def PACKET_GAP_MISS_TIME : Nat := 1500000

/-- `kMaxLidarCount` from the Livox SDK headers: number of device slots. -/
def kMaxLidarCount : Nat := 32

/-- `LivoxRawPoint`: raw fixed-point sample (millimetres, int32) plus
reflectivity byte, as delivered inside an ethernet packet. -/
structure LivoxRawPoint where
  x : Int
  y : Int
  z : Int
  reflectivity : Nat
deriving DecidableEq, Repr

/-- `LivoxPoint`: converted point (metres).  The C floats are modelled as
rationals; `PointCloudConvert` divides by 1000. -/
structure LivoxPoint where
  x : Rat
  y : Rat
  z : Rat
  reflectivity : Nat
deriving DecidableEq, Repr

/-- `struct PointCloudQueue` from main.cpp: fixed buffer, free-running
`rd_idx`/`wr_idx` (`uint32_t`), `mask = size - 1`, `size = BUFFER_POINTS`. -/
structure PointCloudQueue where
  buffer : Nat → LivoxPoint
  rd_idx : Nat
  wr_idx : Nat
  mask : Nat
  size : Nat

/-- The zero point used to fill the (uninitialised) C array in the model. -/
def zeroPoint : LivoxPoint := ⟨0, 0, 0, 0⟩

/-- One queue as set up by `PointCloudPoolInit`: indices zero, `size`
`BUFFER_POINTS`, `mask = BUFFER_POINTS - 1`. -/
def initQueue : PointCloudQueue :=
  { buffer := fun _ => zeroPoint
    rd_idx := 0
    wr_idx := 0
    mask := BUFFER_POINTS - 1
    size := BUFFER_POINTS }

/-- `PointCloudPoolInit`: every device slot gets the initial queue. -/
def PointCloudPoolInit : Nat → PointCloudQueue := fun _ => initQueue

/-- `QueuePop`: read slot `rd_idx & mask`, then `rd_idx++` (uint32).
Returns the popped point together with the new queue state. -/
def QueuePop (q : PointCloudQueue) : LivoxPoint × PointCloudQueue :=
  let rd := q.rd_idx &&& q.mask
  (q.buffer rd, { q with rd_idx := (q.rd_idx + 1) % U32 })

/-- `QueuePush`: write the point at slot `wr_idx & mask`, then `wr_idx++`
(uint32).  No capacity check, exactly as in the source. -/
def QueuePush (q : PointCloudQueue) (p : LivoxPoint) : PointCloudQueue :=
  let wr := q.wr_idx &&& q.mask
  { q with
    buffer := fun i => if i = wr then p else q.buffer i
    wr_idx := (q.wr_idx + 1) % U32 }

/-- `QueueUsedSize`: `(wr_idx - rd_idx) & mask` with uint32 subtraction,
i.e. `(wr_idx + 2^32 - rd_idx) mod 2^32` masked. -/
def QueueUsedSize (q : PointCloudQueue) : Nat :=
  ((q.wr_idx + U32 - q.rd_idx) % U32) &&& q.mask

/-- `QueueIsFull`: the source's unmasked comparison
`(wr_idx + 1) == rd_idx`, the `+ 1` performed in uint32. -/
def QueueIsFull (q : PointCloudQueue) : Bool :=
  (q.wr_idx + 1) % U32 == q.rd_idx

/-- `QueueIsEmpty`: `rd_idx == wr_idx`. -/
def QueueIsEmpty (q : PointCloudQueue) : Bool :=
  q.rd_idx == q.wr_idx

/-- Well-formedness of a queue state: indices are genuine `uint32` values
and `mask`/`size` are as set by `PointCloudPoolInit`. -/
def QueueWF (q : PointCloudQueue) : Prop :=
  q.rd_idx < U32 ∧ q.wr_idx < U32 ∧ q.mask = BUFFER_POINTS - 1 ∧ q.size = BUFFER_POINTS

theorem initQueue_wf : QueueWF initQueue := by
  refine ⟨?_, ?_, rfl, rfl⟩ <;> decide

/-- `(wr + 2^32 - rd) % 2^32 &&& mask` collapses to a single
`mod BUFFER_POINTS` once the indices are in range. -/
theorem queueUsedSize_char (q : PointCloudQueue)
    (hm : q.mask = BUFFER_POINTS - 1) (hr : q.rd_idx < U32) (hw : q.wr_idx < U32) :
    QueueUsedSize q = (q.wr_idx + U32 - q.rd_idx) % BUFFER_POINTS := by
  have h15 : q.mask = 2 ^ 15 - 1 := by rw [hm]; rfl
  have hdvd : (2 ^ 15 : Nat) ∣ U32 := by decide
  unfold QueueUsedSize
  rw [h15, Nat.and_pow_two_sub_one_eq_mod, Nat.mod_mod_of_dvd _ hdvd]
  rfl

theorem queueUsedSize_lt (q : PointCloudQueue)
    (hm : q.mask = BUFFER_POINTS - 1) :
    QueueUsedSize q < BUFFER_POINTS := by
  have h15 : q.mask = 2 ^ 15 - 1 := by rw [hm]; rfl
  unfold QueueUsedSize
  rw [h15, Nat.and_pow_two_sub_one_eq_mod]
  exact Nat.mod_lt _ (by decide)

/-- Pushing under the (spec's) headroom guard adds exactly one element to
the masked used size, even across the `2^32` wrap of `wr_idx`. -/
theorem queueUsedSize_push (q : PointCloudQueue) (p : LivoxPoint)
    (hm : q.mask = BUFFER_POINTS - 1) (hr : q.rd_idx < U32) (hw : q.wr_idx < U32)
    (h : QueueUsedSize q < BUFFER_POINTS - 1) :
    QueueUsedSize (QueuePush q p) = QueueUsedSize q + 1 := by
  have hw' : (q.wr_idx + 1) % U32 < U32 := Nat.mod_lt _ (by decide)
  rw [queueUsedSize_char q hm hr hw] at h ⊢
  rw [queueUsedSize_char _ (by simpa [QueuePush] using hm) (by simpa [QueuePush] using hr) hw']
  show ((q.wr_idx + 1) % U32 + U32 - q.rd_idx) % BUFFER_POINTS =
    (q.wr_idx + U32 - q.rd_idx) % BUFFER_POINTS + 1
  unfold U32 BUFFER_POINTS at *
  omega

/-- Popping under the emptiness guard removes exactly one element from the
masked used size, even across the `2^32` wrap of `rd_idx`. -/
theorem queueUsedSize_pop (q : PointCloudQueue)
    (hm : q.mask = BUFFER_POINTS - 1) (hr : q.rd_idx < U32) (hw : q.wr_idx < U32)
    (h : 0 < QueueUsedSize q) :
    QueueUsedSize (QueuePop q).2 = QueueUsedSize q - 1 := by
  have hr' : (q.rd_idx + 1) % U32 < U32 := Nat.mod_lt _ (by decide)
  rw [queueUsedSize_char q hm hr hw] at h ⊢
  rw [queueUsedSize_char _ (by simpa [QueuePop] using hm) hr'
    (by simpa [QueuePop] using hw)]
  show (q.wr_idx + U32 - (q.rd_idx + 1) % U32) % BUFFER_POINTS =
    (q.wr_idx + U32 - q.rd_idx) % BUFFER_POINTS - 1
  unfold U32 BUFFER_POINTS at *
  omega

theorem QueuePush_rd (q : PointCloudQueue) (p : LivoxPoint) :
    (QueuePush q p).rd_idx = q.rd_idx := rfl

theorem QueuePush_wr (q : PointCloudQueue) (p : LivoxPoint) :
    (QueuePush q p).wr_idx = (q.wr_idx + 1) % U32 := rfl

theorem QueuePush_mask (q : PointCloudQueue) (p : LivoxPoint) :
    (QueuePush q p).mask = q.mask := rfl

theorem QueuePush_size (q : PointCloudQueue) (p : LivoxPoint) :
    (QueuePush q p).size = q.size := rfl

theorem QueuePop_rd (q : PointCloudQueue) :
    (QueuePop q).2.rd_idx = (q.rd_idx + 1) % U32 := rfl

theorem QueuePop_wr (q : PointCloudQueue) :
    (QueuePop q).2.wr_idx = q.wr_idx := rfl

theorem QueuePop_mask (q : PointCloudQueue) :
    (QueuePop q).2.mask = q.mask := rfl

theorem QueuePop_size (q : PointCloudQueue) :
    (QueuePop q).2.size = q.size := rfl

/-- `n` consecutive pushes of the same point (test harness for the
capacity scenario of the spec). -/
def pushN (q : PointCloudQueue) (p : LivoxPoint) : Nat → PointCloudQueue
  | 0 => q
  | n + 1 => QueuePush (pushN q p n) p

theorem pushN_rd (q : PointCloudQueue) (p : LivoxPoint) (n : Nat) :
    (pushN q p n).rd_idx = q.rd_idx := by
  induction n with
  | zero => rfl
  | succ n ih => rw [pushN, QueuePush_rd, ih]

theorem pushN_mask (q : PointCloudQueue) (p : LivoxPoint) (n : Nat) :
    (pushN q p n).mask = q.mask := by
  induction n with
  | zero => rfl
  | succ n ih => rw [pushN, QueuePush_mask, ih]

theorem pushN_wr (q : PointCloudQueue) (p : LivoxPoint) (n : Nat)
    (hw : q.wr_idx < U32) :
    (pushN q p n).wr_idx = (q.wr_idx + n) % U32 := by
  induction n with
  | zero => exact (Nat.mod_eq_of_lt hw).symm
  | succ n ih =>
    rw [pushN, QueuePush_wr, ih]
    unfold U32
    omega

/-- Evaluate `QueueUsedSize` once the index fields are known.  (Stated on a
variable queue so the kernel never has to reduce a large `pushN` term.) -/
theorem queueUsedSize_eval (q : PointCloudQueue) (w r m : Nat)
    (hw : q.wr_idx = w) (hr : q.rd_idx = r) (hm : q.mask = m) :
    QueueUsedSize q = ((w + U32 - r) % U32) &&& m := by
  unfold QueueUsedSize
  rw [hw, hr, hm]

/-- Evaluate `QueueIsFull` once the index fields are known. -/
theorem queueIsFull_eval (q : PointCloudQueue) (w r : Nat)
    (hw : q.wr_idx = w) (hr : q.rd_idx = r) :
    QueueIsFull q = ((w + 1) % U32 == r) := by
  unfold QueueIsFull
  rw [hw, hr]

/-- C1: for capacity `C = BUFFER_POINTS`, starting from the initial empty
state, after `C - 1` pushes with no pops the queue holds `C - 1` points
(the headroom-full state the spec calls full), yet the source's
`QueueIsFull` — the unmasked comparison `(wr_idx + 1) == rd_idx`, i.e.
`32768 == 0` — returns `false`, contradicting the claim that `is_full()`
returns `true` there; it also returns `false` after one further pop. -/
theorem C1_queueIsFull_broken_at_capacity :
    QueueUsedSize (pushN initQueue zeroPoint (BUFFER_POINTS - 1)) = BUFFER_POINTS - 1 ∧
    QueueIsFull (pushN initQueue zeroPoint (BUFFER_POINTS - 1)) = false ∧
    QueueIsFull (QueuePop (pushN initQueue zeroPoint (BUFFER_POINTS - 1))).2 = false := by
  have hw : (pushN initQueue zeroPoint (BUFFER_POINTS - 1)).wr_idx = BUFFER_POINTS - 1 := by
    rw [pushN_wr initQueue zeroPoint (BUFFER_POINTS - 1) (by decide)]
    decide
  have hr : (pushN initQueue zeroPoint (BUFFER_POINTS - 1)).rd_idx = 0 :=
    pushN_rd initQueue zeroPoint (BUFFER_POINTS - 1)
  have hm : (pushN initQueue zeroPoint (BUFFER_POINTS - 1)).mask = BUFFER_POINTS - 1 :=
    pushN_mask initQueue zeroPoint (BUFFER_POINTS - 1)
  refine ⟨?_, ?_, ?_⟩
  · rw [queueUsedSize_eval _ _ _ _ hw hr hm]
    decide
  · rw [queueIsFull_eval _ _ _ hw hr]
    decide
  · have hw2 : (QueuePop (pushN initQueue zeroPoint (BUFFER_POINTS - 1))).2.wr_idx
        = BUFFER_POINTS - 1 := by
      rw [QueuePop_wr]
      exact hw
    have hr2 : (QueuePop (pushN initQueue zeroPoint (BUFFER_POINTS - 1))).2.rd_idx = 1 := by
      rw [QueuePop_rd, hr]
      decide
    rw [queueIsFull_eval _ _ _ hw2 hr2]
    decide

/-- One abstract queue operation, for the spec's "sequence of well-guarded
push/pop operations". -/
inductive QOp where
  | push (p : LivoxPoint)
  | pop
deriving DecidableEq

/-- A well-guarded step, as mandated by the spec's full/empty policy
(one slot of headroom: push only while `used_size() < C - 1`, pop only
while non-empty).  The second component counts the elements logically
held in the queue. -/
def guardedStep (qc : PointCloudQueue × Nat) (op : QOp) : PointCloudQueue × Nat :=
  match op with
  | QOp.push p =>
    if QueueUsedSize qc.1 < BUFFER_POINTS - 1 then (QueuePush qc.1 p, qc.2 + 1) else qc
  | QOp.pop =>
    if 0 < QueueUsedSize qc.1 then ((QueuePop qc.1).2, qc.2 - 1) else qc

/-- Run a sequence of well-guarded operations from the initial state. -/
def guardedRun (ops : List QOp) : PointCloudQueue × Nat :=
  ops.foldl guardedStep (initQueue, 0)

/-- Invariant tying the masked used size to the logical element count. -/
def QueueInv (qc : PointCloudQueue × Nat) : Prop :=
  QueueWF qc.1 ∧ QueueUsedSize qc.1 = qc.2 ∧ qc.2 < BUFFER_POINTS

theorem guardedStep_inv (qc : PointCloudQueue × Nat) (op : QOp)
    (h : QueueInv qc) : QueueInv (guardedStep qc op) := by
  obtain ⟨⟨hr, hw, hm, hs⟩, hused, hlt⟩ := h
  cases op with
  | push p =>
    by_cases hg : QueueUsedSize qc.1 < BUFFER_POINTS - 1
    · simp only [guardedStep, if_pos hg]
      refine ⟨⟨?_, ?_, ?_, ?_⟩, ?_, ?_⟩
      · rw [QueuePush_rd]; exact hr
      · rw [QueuePush_wr]; exact Nat.mod_lt _ (by decide)
      · rw [QueuePush_mask]; exact hm
      · rw [QueuePush_size]; exact hs
      · rw [queueUsedSize_push qc.1 p hm hr hw hg, hused]
      · omega
    · simp only [guardedStep, if_neg hg]
      exact ⟨⟨hr, hw, hm, hs⟩, hused, hlt⟩
  | pop =>
    by_cases hg : 0 < QueueUsedSize qc.1
    · simp only [guardedStep, if_pos hg]
      refine ⟨⟨?_, ?_, ?_, ?_⟩, ?_, ?_⟩
      · rw [QueuePop_rd]; exact Nat.mod_lt _ (by decide)
      · rw [QueuePop_wr]; exact hw
      · rw [QueuePop_mask]; exact hm
      · rw [QueuePop_size]; exact hs
      · rw [queueUsedSize_pop qc.1 hm hr hw hg, hused]
      · omega
    · simp only [guardedStep, if_neg hg]
      exact ⟨⟨hr, hw, hm, hs⟩, hused, hlt⟩

theorem guardedRun_foldl_inv (ops : List QOp) (qc : PointCloudQueue × Nat)
    (h : QueueInv qc) : QueueInv (ops.foldl guardedStep qc) := by
  induction ops generalizing qc with
  | nil => exact h
  | cons op rest ih => exact ih (guardedStep qc op) (guardedStep_inv qc op h)

/-- C2: for every reachable state of a well-guarded run from the initial
state, `QueueUsedSize` is literally `(wr_idx - rd_idx) & mask` (uint32
subtraction), its value is in `[0, C)`, and it equals the logical number
of buffered elements — also when `wr_idx`/`rd_idx` wrap past `2^32`,
since every index update is taken modulo `2^32`. -/
theorem C2_usedSize_counts_elements (ops : List QOp) :
    QueueUsedSize (guardedRun ops).1 =
      (((guardedRun ops).1.wr_idx + U32 - (guardedRun ops).1.rd_idx) % U32)
        &&& (guardedRun ops).1.mask ∧
    QueueUsedSize (guardedRun ops).1 < BUFFER_POINTS ∧
    QueueUsedSize (guardedRun ops).1 = (guardedRun ops).2 := by
  have h := guardedRun_foldl_inv ops (initQueue, 0)
    ⟨initQueue_wf, by decide, by decide⟩
  exact ⟨rfl, h.2.1 ▸ h.2.2, h.2.1⟩

/-- `LidarPacketStatistic` from main.cpp: two `uint32_t` counters and a
`uint64_t` last-seen timestamp. -/
structure LidarPacketStatistic where
  receive_packet_count : Nat
  loss_packet_count : Nat
  last_timestamp : Nat
deriving DecidableEq, Repr

/-- Timestamp-type tags of the Livox SDK (`kTimestampTypeNoSync`,
`kTimestampTypePtp`, `kTimestampTypeRsvd`, `kTimestampTypePps`,
`kTimestampTypePpsGps`). -/
inductive TimestampType where
  | NoSync
  | Ptp
  | Rsvd
  | Pps
  | PpsGps
deriving DecidableEq, Repr

/-- `LivoxEthPacket` as used by `GetLidarData`: the 8-byte timestamp read
as one `uint64`, the timestamp-type tag, and the raw samples (the C
`data` pointer together with `data_num`; an empty list models the
`!data || !data_num` no-op case). -/
structure LivoxEthPacket where
  timestamp : Nat
  timestamp_type : TimestampType
  data : List LivoxRawPoint
deriving DecidableEq, Repr

/-- `PointCloudConvert`: millimetre integers to metres (divide by 1000),
reflectivity copied verbatim. -/
def PointCloudConvert (p_raw_point : LivoxRawPoint) : LivoxPoint :=
  { x := (p_raw_point.x : Rat) / 1000
    y := (p_raw_point.y : Rat) / 1000
    z := (p_raw_point.z : Rat) / 1000
    reflectivity := p_raw_point.reflectivity }

/-- The `while (data_num)` loop of `GetLidarData`: convert one raw sample,
stop as soon as `QueueIsFull` reports full, otherwise push and continue. -/
def pushLoop (q : PointCloudQueue) : List LivoxRawPoint → PointCloudQueue
  | [] => q
  | raw :: rest =>
    let tmp_point := PointCloudConvert raw
    if QueueIsFull q then q
    else pushLoop (QueuePush q tmp_point) rest

/-- The statistics update of `GetLidarData` (lines 184-203): for a
supported time-source tag, read the timestamp, form the uint64 gap to the
previous one, bump the receive counter, bump the loss counter when this
is not the first batch (`last_timestamp != 0`) and the gap exceeds the
threshold, and record the timestamp. -/
def packetStatisticUpdate (st : LidarPacketStatistic) (pkt : LivoxEthPacket) :
    LidarPacketStatistic :=
  if pkt.timestamp_type = TimestampType.NoSync ∨ pkt.timestamp_type = TimestampType.Ptp ∨
      pkt.timestamp_type = TimestampType.Pps then
    let cur_timestamp := pkt.timestamp
    let packet_gap := (cur_timestamp + U64 - st.last_timestamp) % U64
    let st1 := { st with receive_packet_count := (st.receive_packet_count + 1) % U32 }
    let st2 :=
      if st1.last_timestamp ≠ 0 then
        if packet_gap > PACKET_GAP_MISS_TIME then
          { st1 with loss_packet_count := (st1.loss_packet_count + 1) % U32 }
        else st1
      else st1
    { st2 with last_timestamp := cur_timestamp }
  else st

/-- `GetLidarData` restricted to one device slot: no-op on an empty batch
(`!data || !data_num`), otherwise update the loss statistics and run the
push loop over the raw samples. -/
def GetLidarData (st : LidarPacketStatistic) (q : PointCloudQueue)
    (pkt : LivoxEthPacket) : LidarPacketStatistic × PointCloudQueue :=
  if pkt.data = [] then (st, q)
  else (packetStatisticUpdate st pkt, pushLoop q pkt.data)

/-- C3: for a batch with a supported time-source tag that is not the first
batch for the device (`last_timestamp ≠ 0`): when the uint64 gap exceeds
`PACKET_GAP_MISS_TIME` both the loss counter and the received counter
grow by exactly one; when the gap is at or below the threshold only the
received counter grows; in both cases `last_timestamp` becomes the
batch's timestamp.  The counter bounds make "increments by exactly one"
exact rather than modulo `2^32`. -/
theorem C3_loss_detection (st : LidarPacketStatistic) (q : PointCloudQueue)
    (pkt : LivoxEthPacket)
    (hsup : pkt.timestamp_type = TimestampType.NoSync ∨
      pkt.timestamp_type = TimestampType.Ptp ∨ pkt.timestamp_type = TimestampType.Pps)
    (hne : pkt.data ≠ [])
    (hfirst : st.last_timestamp ≠ 0)
    (hrc : st.receive_packet_count + 1 < U32)
    (hlc : st.loss_packet_count + 1 < U32) :
    ((pkt.timestamp + U64 - st.last_timestamp) % U64 > PACKET_GAP_MISS_TIME →
      (GetLidarData st q pkt).1.loss_packet_count = st.loss_packet_count + 1 ∧
      (GetLidarData st q pkt).1.receive_packet_count = st.receive_packet_count + 1) ∧
    ((pkt.timestamp + U64 - st.last_timestamp) % U64 ≤ PACKET_GAP_MISS_TIME →
      (GetLidarData st q pkt).1.loss_packet_count = st.loss_packet_count ∧
      (GetLidarData st q pkt).1.receive_packet_count = st.receive_packet_count + 1) ∧
    (GetLidarData st q pkt).1.last_timestamp = pkt.timestamp := by
  have hmain : (GetLidarData st q pkt).1 = packetStatisticUpdate st pkt := by
    unfold GetLidarData
    rw [if_neg hne]
  rw [hmain]
  unfold packetStatisticUpdate
  rw [if_pos hsup]
  simp only [ne_eq, ite_not]
  rw [if_neg hfirst]
  by_cases hgap : (pkt.timestamp + U64 - st.last_timestamp) % U64 > PACKET_GAP_MISS_TIME
  · rw [if_pos hgap]
    refine ⟨fun _ => ⟨?_, ?_⟩, fun h => absurd hgap (by omega), by trivial⟩
    · exact Nat.mod_eq_of_lt hlc
    · exact Nat.mod_eq_of_lt hrc
  · rw [if_neg hgap]
    refine ⟨fun h => absurd h hgap, fun _ => ⟨by trivial, ?_⟩, by trivial⟩
    exact Nat.mod_eq_of_lt hrc

/-- Witness for C3: statistics `(recv 5, loss 2, last 1000)`, a NoSync
batch at timestamp 2000000 (gap 1999000 > 1500000): loss and receive both
grow by one and the timestamp is recorded. -/
theorem C3_witness :
    (2000000 + U64 - 1000) % U64 > PACKET_GAP_MISS_TIME ∧
    ((GetLidarData ⟨5, 2, 1000⟩ initQueue
        ⟨2000000, TimestampType.NoSync, [⟨1, 2, 3, 4⟩]⟩).1.loss_packet_count = 2 + 1 ∧
      (GetLidarData ⟨5, 2, 1000⟩ initQueue
        ⟨2000000, TimestampType.NoSync, [⟨1, 2, 3, 4⟩]⟩).1.receive_packet_count = 5 + 1) ∧
    (GetLidarData ⟨5, 2, 1000⟩ initQueue
        ⟨2000000, TimestampType.NoSync, [⟨1, 2, 3, 4⟩]⟩).1.last_timestamp = 2000000 :=
  ⟨by decide,
    (C3_loss_detection ⟨5, 2, 1000⟩ initQueue ⟨2000000, TimestampType.NoSync, [⟨1, 2, 3, 4⟩]⟩
      (Or.inl rfl) (by decide) (by decide) (by decide) (by decide)).1 (by decide),
    (C3_loss_detection ⟨5, 2, 1000⟩ initQueue ⟨2000000, TimestampType.NoSync, [⟨1, 2, 3, 4⟩]⟩
      (Or.inl rfl) (by decide) (by decide) (by decide) (by decide)).2.2⟩

/-- Once `QueueIsFull` reports full, the push loop stops without touching
the queue. -/
theorem pushLoop_of_full (q : PointCloudQueue) (pts : List LivoxRawPoint)
    (h : QueueIsFull q = true) : pushLoop q pts = q := by
  cases pts with
  | nil => rfl
  | cons raw rest => simp [pushLoop, h]

/-- C4: a batch delivered while the queue already reports full is dropped
whole: the ingest call leaves the queue — in particular `wr_idx` —
completely unchanged, with no error surfaced. -/
theorem C4_full_queue_drops_batch (st : LidarPacketStatistic) (q : PointCloudQueue)
    (pkt : LivoxEthPacket) (h : QueueIsFull q = true) :
    (GetLidarData st q pkt).2 = q ∧ (GetLidarData st q pkt).2.wr_idx = q.wr_idx := by
  have h2 : (GetLidarData st q pkt).2 = q := by
    unfold GetLidarData
    by_cases hd : pkt.data = []
    · rw [if_pos hd]
    · rw [if_neg hd]
      exact pushLoop_of_full q pkt.data h
  exact ⟨h2, by rw [h2]⟩

/-- Witness for C4: a queue with `wr_idx = 0`, `rd_idx = 1` reports full
(`(0+1) % 2^32 == 1`), and a three-sample NoSync batch leaves it
untouched. -/
theorem C4_witness :
    QueueIsFull ⟨fun _ => zeroPoint, 1, 0, BUFFER_POINTS - 1, BUFFER_POINTS⟩ = true ∧
    (GetLidarData ⟨0, 0, 0⟩ ⟨fun _ => zeroPoint, 1, 0, BUFFER_POINTS - 1, BUFFER_POINTS⟩
        ⟨500, TimestampType.NoSync, [⟨1, 1, 1, 1⟩, ⟨2, 2, 2, 2⟩, ⟨3, 3, 3, 3⟩]⟩).2 =
      ⟨fun _ => zeroPoint, 1, 0, BUFFER_POINTS - 1, BUFFER_POINTS⟩ :=
  ⟨by decide,
    (C4_full_queue_drops_batch ⟨0, 0, 0⟩
      ⟨fun _ => zeroPoint, 1, 0, BUFFER_POINTS - 1, BUFFER_POINTS⟩
      ⟨500, TimestampType.NoSync, [⟨1, 1, 1, 1⟩, ⟨2, 2, 2, 2⟩, ⟨3, 3, 3, 3⟩]⟩
      (by decide)).1⟩

/-- Pop `n` points in order (the `for` loop inside
`PublishPointcloudData`), returning the popped points and the queue. -/
def popN : Nat → PointCloudQueue → List LivoxPoint × PointCloudQueue
  | 0, q => ([], q)
  | n + 1, q =>
    let pr := QueuePop q
    let rest := popN n pr.2
    (pr.1 :: rest.1, rest.2)

theorem popN_length (n : Nat) (q : PointCloudQueue) : (popN n q).1.length = n := by
  induction n generalizing q with
  | zero => rfl
  | succ n ih => simp [popN, ih]

theorem popN_wr (n : Nat) (q : PointCloudQueue) : (popN n q).2.wr_idx = q.wr_idx := by
  induction n generalizing q with
  | zero => rfl
  | succ n ih => simp [popN, ih, QueuePop_wr]

theorem popN_mask (n : Nat) (q : PointCloudQueue) : (popN n q).2.mask = q.mask := by
  induction n generalizing q with
  | zero => rfl
  | succ n ih => simp [popN, ih, QueuePop_mask]

theorem popN_rd (n : Nat) (q : PointCloudQueue) (hr : q.rd_idx < U32) :
    (popN n q).2.rd_idx = (q.rd_idx + n) % U32 := by
  induction n generalizing q with
  | zero => exact (Nat.mod_eq_of_lt hr).symm
  | succ n ih =>
    show (popN n (QueuePop q).2).2.rd_idx = (q.rd_idx + (n + 1)) % U32
    rw [ih (QueuePop q).2 (by rw [QueuePop_rd]; exact Nat.mod_lt _ (by decide)), QueuePop_rd]
    unfold U32
    omega

/-- `PublishPointcloudData`: pop `num` points, assemble them (with their
reflectivities) into one frame for the downstream sink, return the frame
and the drained queue. -/
def PublishPointcloudData (queue : PointCloudQueue) (num : Nat) :
    List LivoxPoint × PointCloudQueue :=
  popN num queue

/-- The per-slot body of `PollPointcloudData`: publish one frame of
`POINTS_PER_FRAME` points iff strictly more than `POINTS_PER_FRAME`
points are buffered. -/
def PollSlot (q : PointCloudQueue) : Option (List LivoxPoint) × PointCloudQueue :=
  if QueueUsedSize q > POINTS_PER_FRAME then
    (some (PublishPointcloudData q POINTS_PER_FRAME).1,
      (PublishPointcloudData q POINTS_PER_FRAME).2)
  else (none, q)

/-- `PollPointcloudData`: one poll cycle over all device slots. -/
def PollPointcloudData (queues : Nat → PointCloudQueue) :
    List (Option (List LivoxPoint)) × (Nat → PointCloudQueue) :=
  (List.range kMaxLidarCount).foldl
    (fun acc i =>
      let r := PollSlot (acc.2 i)
      (acc.1 ++ [r.1], fun j => if j = i then r.2 else acc.2 j))
    ([], queues)

/-- C5: one poll cycle for a device slot publishes only when strictly more
than `POINTS_PER_FRAME` points are buffered: at `POINTS_PER_FRAME` or
fewer points nothing is emitted and the queue is untouched; every emitted
frame holds exactly `POINTS_PER_FRAME` points (never a partial frame);
and with exactly `POINTS_PER_FRAME + 1` points buffered one frame of
`POINTS_PER_FRAME` points is emitted with exactly 1 point left. -/
theorem C5_poll_publish_threshold (q : PointCloudQueue)
    (hm : q.mask = BUFFER_POINTS - 1) (hr : q.rd_idx < U32) (hw : q.wr_idx < U32) :
    (QueueUsedSize q ≤ POINTS_PER_FRAME → PollSlot q = (none, q)) ∧
    (∀ f q', PollSlot q = (some f, q') → f.length = POINTS_PER_FRAME) ∧
    (QueueUsedSize q = POINTS_PER_FRAME + 1 →
      (PollSlot q).1 = some (popN POINTS_PER_FRAME q).1 ∧
      (popN POINTS_PER_FRAME q).1.length = POINTS_PER_FRAME ∧
      QueueUsedSize (PollSlot q).2 = 1) := by
  refine ⟨?_, ?_, ?_⟩
  · intro hle
    unfold PollSlot
    rw [if_neg (by omega)]
  · intro f q' h
    unfold PollSlot at h
    by_cases hgt : QueueUsedSize q > POINTS_PER_FRAME
    · rw [if_pos hgt] at h
      have : f = (PublishPointcloudData q POINTS_PER_FRAME).1 := by
        have h1 := congrArg Prod.fst h
        simp only at h1
        exact (Option.some.inj h1).symm
      rw [this]
      exact popN_length POINTS_PER_FRAME q
    · rw [if_neg hgt] at h
      exact absurd (congrArg Prod.fst h) (by simp)
  · intro h5001
    have hgt : QueueUsedSize q > POINTS_PER_FRAME := by omega
    have hps : PollSlot q =
        (some (PublishPointcloudData q POINTS_PER_FRAME).1,
          (PublishPointcloudData q POINTS_PER_FRAME).2) := by
      unfold PollSlot
      rw [if_pos hgt]
    have hpub : PublishPointcloudData q POINTS_PER_FRAME = popN POINTS_PER_FRAME q := rfl
    refine ⟨by rw [hps, hpub], popN_length POINTS_PER_FRAME q, ?_⟩
    have hsnd : (PollSlot q).2 = (popN POINTS_PER_FRAME q).2 := by
      rw [hps, hpub]
    rw [hsnd]
    have hrd : (popN POINTS_PER_FRAME q).2.rd_idx = (q.rd_idx + POINTS_PER_FRAME) % U32 :=
      popN_rd POINTS_PER_FRAME q hr
    have hrd' : (popN POINTS_PER_FRAME q).2.rd_idx < U32 := by
      rw [hrd]; exact Nat.mod_lt _ (by decide)
    have hwr : (popN POINTS_PER_FRAME q).2.wr_idx = q.wr_idx := popN_wr POINTS_PER_FRAME q
    have hww : (popN POINTS_PER_FRAME q).2.wr_idx < U32 := by rw [hwr]; exact hw
    have hmk : (popN POINTS_PER_FRAME q).2.mask = q.mask := popN_mask POINTS_PER_FRAME q
    rw [queueUsedSize_char q hm hr hw] at h5001
    rw [queueUsedSize_char _ (hmk.trans hm) hrd' hww, hrd, hwr]
    unfold U32 BUFFER_POINTS POINTS_PER_FRAME at h5001 ⊢
    omega

/-- A queue holding exactly `POINTS_PER_FRAME + 1` points. -/
def frameQueue5001 : PointCloudQueue :=
  ⟨fun _ => zeroPoint, 0, 5001, BUFFER_POINTS - 1, BUFFER_POINTS⟩

/-- A queue holding exactly `POINTS_PER_FRAME` points. -/
def frameQueue5000 : PointCloudQueue :=
  ⟨fun _ => zeroPoint, 0, 5000, BUFFER_POINTS - 1, BUFFER_POINTS⟩

/-- Witness for C5: with 5001 points buffered one frame of 5000 points is
published and 1 point stays; with exactly 5000 points nothing happens. -/
theorem C5_witness :
    QueueUsedSize frameQueue5001 = POINTS_PER_FRAME + 1 ∧
    ((PollSlot frameQueue5001).1 = some (popN POINTS_PER_FRAME frameQueue5001).1 ∧
      (popN POINTS_PER_FRAME frameQueue5001).1.length = POINTS_PER_FRAME ∧
      QueueUsedSize (PollSlot frameQueue5001).2 = 1) ∧
    QueueUsedSize frameQueue5000 = POINTS_PER_FRAME ∧
    PollSlot frameQueue5000 = (none, frameQueue5000) :=
  ⟨by decide,
    (C5_poll_publish_threshold frameQueue5001 rfl (by decide) (by decide)).2.2 (by decide),
    by decide,
    (C5_poll_publish_threshold frameQueue5000 rfl (by decide) (by decide)).1 (by decide)⟩

/-- If the source's full check never fires along the way and there is
room below the mask, the push loop enqueues every sample and the used
size grows by the batch length. -/
theorem pushLoop_pushes_all (pts : List LivoxRawPoint) (q : PointCloudQueue)
    (hm : q.mask = BUFFER_POINTS - 1) (hr : q.rd_idx < U32) (hw : q.wr_idx < U32)
    (hnf : ∀ k, k < pts.length → (q.wr_idx + k + 1) % U32 ≠ q.rd_idx)
    (hroom : QueueUsedSize q + pts.length < BUFFER_POINTS) :
    QueueUsedSize (pushLoop q pts) = QueueUsedSize q + pts.length := by
  induction pts generalizing q with
  | nil => rfl
  | cons raw rest ih =>
    have hfull : QueueIsFull q = false := by
      have h0 : (q.wr_idx + 1) % U32 ≠ q.rd_idx := by simpa using hnf 0 (by simp)
      simp only [QueueIsFull, beq_eq_false_iff_ne, ne_eq]
      exact h0
    have hused : QueueUsedSize q < BUFFER_POINTS - 1 := by
      simp only [List.length_cons] at hroom
      omega
    have hstep : pushLoop q (raw :: rest) =
        pushLoop (QueuePush q (PointCloudConvert raw)) rest := by
      simp only [pushLoop, hfull, Bool.false_eq_true, if_false]
    rw [hstep]
    have hpush := queueUsedSize_push q (PointCloudConvert raw) hm hr hw hused
    have hrec := ih (QueuePush q (PointCloudConvert raw))
      (by rw [QueuePush_mask]; exact hm)
      (by rw [QueuePush_rd]; exact hr)
      (by rw [QueuePush_wr]; exact Nat.mod_lt _ (by decide))
      (by
        intro k hk
        rw [QueuePush_wr, QueuePush_rd]
        have := hnf (k + 1) (by simp only [List.length_cons]; omega)
        intro hc
        apply this
        rw [← hc]
        unfold U32
        omega)
      (by rw [hpush]; simp only [List.length_cons] at hroom ⊢; omega)
    rw [hrec, hpush]
    simp only [List.length_cons]
    omega

/-- C8: a batch whose time-source tag is unsupported (not NoSync, Ptp or
Pps) leaves `receive_packet_count`, `loss_packet_count` and
`last_timestamp` untouched, while its points are still converted and
pushed into the queue; when the queue has room (and the broken full check
stays quiet) the used size strictly grows by the batch length. -/
theorem C8_unsupported_tag_skips_statistics (st : LidarPacketStatistic)
    (q : PointCloudQueue) (pkt : LivoxEthPacket)
    (hunsup : ¬(pkt.timestamp_type = TimestampType.NoSync ∨
      pkt.timestamp_type = TimestampType.Ptp ∨ pkt.timestamp_type = TimestampType.Pps)) :
    (GetLidarData st q pkt).1 = st ∧
    (GetLidarData st q pkt).2 = pushLoop q pkt.data ∧
    (pkt.data ≠ [] → q.mask = BUFFER_POINTS - 1 → q.rd_idx < U32 → q.wr_idx < U32 →
      (∀ k, k < pkt.data.length → (q.wr_idx + k + 1) % U32 ≠ q.rd_idx) →
      QueueUsedSize q + pkt.data.length < BUFFER_POINTS →
      QueueUsedSize (GetLidarData st q pkt).2 = QueueUsedSize q + pkt.data.length ∧
      QueueUsedSize q < QueueUsedSize (GetLidarData st q pkt).2) := by
  by_cases hd : pkt.data = []
  · have hget : GetLidarData st q pkt = (st, q) := by
      unfold GetLidarData
      rw [if_pos hd]
    refine ⟨by rw [hget], by rw [hget, hd]; rfl, fun hne => absurd hd hne⟩
  · have hget : GetLidarData st q pkt = (packetStatisticUpdate st pkt, pushLoop q pkt.data) := by
      unfold GetLidarData
      rw [if_neg hd]
    have hstat : packetStatisticUpdate st pkt = st := by
      unfold packetStatisticUpdate
      rw [if_neg hunsup]
    refine ⟨by rw [hget]; exact hstat, by rw [hget], ?_⟩
    intro hne hm hr hw hnf hroom
    have hall := pushLoop_pushes_all pkt.data q hm hr hw hnf hroom
    have hlen : 0 < pkt.data.length := List.length_pos.mpr hne
    constructor
    · rw [hget]
      exact hall
    · rw [hget]
      show QueueUsedSize q < QueueUsedSize (pushLoop q pkt.data)
      omega

/-- An unsupported-tag packet (PpsGps) with one raw sample. -/
def pktUnsup : LivoxEthPacket := ⟨999, TimestampType.PpsGps, [⟨1, 2, 3, 4⟩]⟩

/-- A statistics record used for the unsupported-tag scenario. -/
def stUnsup : LidarPacketStatistic := ⟨7, 3, 42⟩

/-- Witness for C8: a PpsGps batch of one sample on the empty initial
queue leaves the statistics untouched and grows the queue by one. -/
theorem C8_witness :
    (GetLidarData stUnsup initQueue pktUnsup).1 = stUnsup ∧
    QueueUsedSize (GetLidarData stUnsup initQueue pktUnsup).2 =
      QueueUsedSize initQueue + pktUnsup.data.length ∧
    QueueUsedSize initQueue < QueueUsedSize (GetLidarData stUnsup initQueue pktUnsup).2 :=
  have h := C8_unsupported_tag_skips_statistics stUnsup initQueue pktUnsup (by decide)
  have h3 := h.2.2 (by decide) rfl (by decide) (by decide) (by decide) (by decide)
  ⟨h.1, h3.1, h3.2⟩

/-- `GetLidarData` on a non-empty batch applies the statistics update. -/
theorem getLidarData_fst (st : LidarPacketStatistic) (q : PointCloudQueue)
    (pkt : LivoxEthPacket) (hne : pkt.data ≠ []) :
    (GetLidarData st q pkt).1 = packetStatisticUpdate st pkt := by
  unfold GetLidarData
  rw [if_neg hne]

/-- For a supported tag the statistics update records the batch timestamp. -/
theorem packetStatisticUpdate_last (st : LidarPacketStatistic) (pkt : LivoxEthPacket)
    (hsup : pkt.timestamp_type = TimestampType.NoSync ∨
      pkt.timestamp_type = TimestampType.Ptp ∨ pkt.timestamp_type = TimestampType.Pps) :
    (packetStatisticUpdate st pkt).last_timestamp = pkt.timestamp := by
  unfold packetStatisticUpdate
  rw [if_pos hsup]

/-- With `last_timestamp = 0` the update can only bump the receive
counter: the loss branch is never entered. -/
theorem packetStatisticUpdate_first (st : LidarPacketStatistic) (pkt : LivoxEthPacket)
    (hsup : pkt.timestamp_type = TimestampType.NoSync ∨
      pkt.timestamp_type = TimestampType.Ptp ∨ pkt.timestamp_type = TimestampType.Pps)
    (hlast : st.last_timestamp = 0) :
    (packetStatisticUpdate st pkt).loss_packet_count = st.loss_packet_count ∧
    (packetStatisticUpdate st pkt).receive_packet_count =
      (st.receive_packet_count + 1) % U32 := by
  unfold packetStatisticUpdate
  rw [if_pos hsup]
  simp only [ne_eq, ite_not]
  rw [if_pos hlast]
  exact ⟨rfl, rfl⟩

/-- C9: "first batch" is detected by `last_timestamp == 0`.  (a) Whenever
`last_timestamp = 0` at entry, a supported non-empty batch bumps only the
receive counter — the loss counter cannot move.  (b) A batch whose
device-supplied timestamp is exactly 0 stores 0 into `last_timestamp`,
so the immediately following supported batch is again treated as a first
batch: its loss evaluation is skipped regardless of its gap. -/
theorem C9_zero_timestamp_resets_first_batch (st0 st : LidarPacketStatistic)
    (q0 q1 q2 : PointCloudQueue) (pkt0 pkt1 pkt2 : LivoxEthPacket)
    (h0sup : pkt0.timestamp_type = TimestampType.NoSync ∨
      pkt0.timestamp_type = TimestampType.Ptp ∨ pkt0.timestamp_type = TimestampType.Pps)
    (h0ne : pkt0.data ≠ [])
    (h0last : st0.last_timestamp = 0)
    (h1sup : pkt1.timestamp_type = TimestampType.NoSync ∨
      pkt1.timestamp_type = TimestampType.Ptp ∨ pkt1.timestamp_type = TimestampType.Pps)
    (h1ne : pkt1.data ≠ [])
    (h1ts : pkt1.timestamp = 0)
    (h2sup : pkt2.timestamp_type = TimestampType.NoSync ∨
      pkt2.timestamp_type = TimestampType.Ptp ∨ pkt2.timestamp_type = TimestampType.Pps)
    (h2ne : pkt2.data ≠ []) :
    ((GetLidarData st0 q0 pkt0).1.loss_packet_count = st0.loss_packet_count ∧
      (GetLidarData st0 q0 pkt0).1.receive_packet_count =
        (st0.receive_packet_count + 1) % U32) ∧
    (GetLidarData st q1 pkt1).1.last_timestamp = 0 ∧
    ((GetLidarData (GetLidarData st q1 pkt1).1 q2 pkt2).1.loss_packet_count =
        (GetLidarData st q1 pkt1).1.loss_packet_count ∧
      (GetLidarData (GetLidarData st q1 pkt1).1 q2 pkt2).1.receive_packet_count =
        ((GetLidarData st q1 pkt1).1.receive_packet_count + 1) % U32) := by
  have hmid : (GetLidarData st q1 pkt1).1.last_timestamp = 0 := by
    rw [getLidarData_fst st q1 pkt1 h1ne, packetStatisticUpdate_last st pkt1 h1sup]
    exact h1ts
  refine ⟨?_, hmid, ?_⟩
  · rw [getLidarData_fst st0 q0 pkt0 h0ne]
    exact packetStatisticUpdate_first st0 pkt0 h0sup h0last
  · rw [getLidarData_fst (GetLidarData st q1 pkt1).1 q2 pkt2 h2ne]
    exact packetStatisticUpdate_first (GetLidarData st q1 pkt1).1 pkt2 h2sup hmid

/-- A supported batch whose embedded timestamp is exactly zero. -/
def pktZeroTs : LivoxEthPacket := ⟨0, TimestampType.NoSync, [⟨5, 5, 5, 5⟩]⟩

/-- A later supported batch with a huge gap from timestamp zero. -/
def pktAfterZero : LivoxEthPacket := ⟨99000000, TimestampType.Ptp, [⟨6, 6, 6, 6⟩]⟩

/-- Witness for C9: statistics `(recv 20, loss 5, last 777)` fed a
timestamp-0 NoSync batch, then a Ptp batch 99 ms later: the second batch
is treated as a first batch — loss unchanged — although its gap is far
above the threshold; and a fresh device (`last 0`) fed a Pps batch keeps
its loss counter. -/
theorem C9_witness :
    ((GetLidarData ⟨10, 4, 0⟩ initQueue ⟨5000000, TimestampType.Pps, [⟨9, 9, 9, 9⟩]⟩).1.loss_packet_count = 4 ∧
      (GetLidarData ⟨10, 4, 0⟩ initQueue ⟨5000000, TimestampType.Pps, [⟨9, 9, 9, 9⟩]⟩).1.receive_packet_count =
        (10 + 1) % U32) ∧
    (GetLidarData ⟨20, 5, 777⟩ initQueue pktZeroTs).1.last_timestamp = 0 ∧
    ((GetLidarData (GetLidarData ⟨20, 5, 777⟩ initQueue pktZeroTs).1 initQueue pktAfterZero).1.loss_packet_count =
        (GetLidarData ⟨20, 5, 777⟩ initQueue pktZeroTs).1.loss_packet_count ∧
      (GetLidarData (GetLidarData ⟨20, 5, 777⟩ initQueue pktZeroTs).1 initQueue pktAfterZero).1.receive_packet_count =
        ((GetLidarData ⟨20, 5, 777⟩ initQueue pktZeroTs).1.receive_packet_count + 1) % U32) :=
  C9_zero_timestamp_resets_first_batch ⟨10, 4, 0⟩ ⟨20, 5, 777⟩
    initQueue initQueue initQueue
    ⟨5000000, TimestampType.Pps, [⟨9, 9, 9, 9⟩]⟩ pktZeroTs pktAfterZero
    (by decide) (by decide) (by decide)
    (by decide) (by decide) (by decide)
    (by decide) (by decide)

/-- `DeviceState` from main.cpp. -/
inductive DeviceState where
  | Disconnect
  | Connect
  | Sampling
deriving DecidableEq, Repr

/-- Lidar working states of the SDK (`kLidarStateNormal` etc.). -/
inductive LidarState where
  | Init
  | Normal
  | PowerSaving
  | StandBy
  | Error
  | Unknown
deriving DecidableEq, Repr

/-- Device kinds of the SDK; only hub vs non-hub matters here. -/
inductive DeviceType where
  | Hub
  | Mid40
  | Mid100
deriving DecidableEq, Repr

/-- The part of the SDK's `DeviceInfo` that `OnDeviceChange` reads:
handle, working state, status/error code, and device type. -/
structure DeviceInfo where
  handle : Nat
  state : LidarState
  status_code : Nat
  feature : Nat
  dtype : DeviceType
deriving DecidableEq, Repr

/-- `DeviceItem` from main.cpp. -/
structure DeviceItem where
  handle : Nat
  device_state : DeviceState
  info : DeviceInfo
  statistic_info : LidarPacketStatistic
deriving DecidableEq, Repr

/-- `DeviceEvent` kinds of the SDK (`kEventConnect`, `kEventDisconnect`,
`kEventStateChange`). -/
inductive DeviceEvent where
  | Connect
  | Disconnect
  | StateChange
deriving DecidableEq, Repr

/-- SDK status codes as used by `OnSampleCallback` (`kStatusSuccess`,
`kStatusTimeout`, anything else). -/
inductive LivoxStatus where
  | Success
  | Timeout
  | Failure
deriving DecidableEq, Repr

/-- The body of `OnDeviceChange` for the slot `lidars[info->handle]`
(lines 273-297): the event branch, then the start-sampling block that
runs whenever the slot is left in `Connect` with a normal working state
and a zero status code. -/
def OnDeviceChangeSlot (d : DeviceItem) (info : DeviceInfo) (ev : DeviceEvent) : DeviceItem :=
  let d1 :=
    match ev with
    | DeviceEvent.Connect =>
      if d.device_state = DeviceState.Disconnect then
        { d with device_state := DeviceState.Connect, info := info }
      else d
    | DeviceEvent.Disconnect => { d with device_state := DeviceState.Disconnect }
    | DeviceEvent.StateChange => { d with info := info }
  if d1.device_state = DeviceState.Connect then
    if d1.info.state = LidarState.Normal ∧ d1.info.status_code = 0 then
      { d1 with device_state := DeviceState.Sampling }
    else d1
  else d1

/-- `OnSampleCallback` for the slot `lidars[handle]` (lines 234-243):
on success with a nonzero response, or on timeout, fall back to
`Connect`; otherwise leave the slot alone. -/
def OnSampleCallback (d : DeviceItem) (status : LivoxStatus) (response : Nat) : DeviceItem :=
  match status with
  | LivoxStatus.Success =>
    if response ≠ 0 then { d with device_state := DeviceState.Connect } else d
  | LivoxStatus.Timeout => { d with device_state := DeviceState.Connect }
  | LivoxStatus.Failure => d

/-- One event hitting a device slot: either a device state-change
notification handled by `OnDeviceChange`, or a start-sampling callback. -/
inductive SystemEvent where
  | deviceEvent (info : DeviceInfo) (ev : DeviceEvent)
  | sampleCallback (status : LivoxStatus) (response : Nat)
deriving DecidableEq, Repr

/-- Dispatch one event to a device slot. -/
def stepDevice (d : DeviceItem) : SystemEvent → DeviceItem
  | SystemEvent.deviceEvent info ev => OnDeviceChangeSlot d info ev
  | SystemEvent.sampleCallback status response => OnSampleCallback d status response

/-- Is the event a disconnect notification? -/
def isDisconnectEvent : SystemEvent → Bool
  | SystemEvent.deviceEvent _ DeviceEvent.Disconnect => true
  | _ => false

/-- Device info reporting a normal working state with zero status code. -/
def normalInfo : DeviceInfo := ⟨0, LidarState.Normal, 0, 0, DeviceType.Mid40⟩

/-- A device slot currently in the Sampling state. -/
def samplingDevice : DeviceItem := ⟨0, DeviceState.Sampling, normalInfo, ⟨0, 0, 0⟩⟩

/-- Counterexample to C6: a start-sampling callback reporting a timeout
(`OnSampleCallback`, line 241) moves a Sampling device directly to
Connect, and it is not a Disconnect event. -/
theorem C6_counterexample :
    samplingDevice.device_state = DeviceState.Sampling ∧
    isDisconnectEvent (SystemEvent.sampleCallback LivoxStatus.Timeout 0) = false ∧
    (stepDevice samplingDevice (SystemEvent.sampleCallback LivoxStatus.Timeout 0)).device_state
      = DeviceState.Connect := by
  decide

/-- C6 (amended): a device in Sampling is taken directly to Connect only
by a start-sampling callback reporting failure — success with nonzero
response, or timeout; no `OnDeviceChange` event (Connect, Disconnect or
StateChange) does so. -/
theorem C6_sampling_to_connect_only_on_failed_callback
    (d : DeviceItem) (e : SystemEvent)
    (hs : d.device_state = DeviceState.Sampling)
    (hc : (stepDevice d e).device_state = DeviceState.Connect) :
    ∃ status response, e = SystemEvent.sampleCallback status response ∧
      ((status = LivoxStatus.Success ∧ response ≠ 0) ∨ status = LivoxStatus.Timeout) := by
  cases e with
  | deviceEvent info ev =>
    cases ev <;> simp [stepDevice, OnDeviceChangeSlot, hs] at hc
  | sampleCallback status response =>
    cases status with
    | Success =>
      by_cases hresp : response = 0
      · simp [stepDevice, OnSampleCallback, hresp, hs] at hc
      · exact ⟨_, _, rfl, Or.inl ⟨rfl, hresp⟩⟩
    | Timeout => exact ⟨_, _, rfl, Or.inr rfl⟩
    | Failure => simp [stepDevice, OnSampleCallback, hs] at hc

/-- Witness for the amended C6, at the concrete Sampling device and the
timeout callback. -/
theorem C6_witness :
    ∃ status response,
      SystemEvent.sampleCallback LivoxStatus.Timeout 0
        = SystemEvent.sampleCallback status response ∧
      ((status = LivoxStatus.Success ∧ response ≠ 0) ∨ status = LivoxStatus.Timeout) :=
  C6_sampling_to_connect_only_on_failed_callback samplingDevice
    (SystemEvent.sampleCallback LivoxStatus.Timeout 0) (by decide) (by decide)

/-- The global mutable state of main.cpp: `lidars[]` and
`point_cloud_queue_pool[]`, both indexed by handle. -/
structure SystemState where
  lidars : Nat → DeviceItem
  queues : Nat → PointCloudQueue

/-- `OnDeviceChange`: ignore null/out-of-range handles, otherwise apply
the slot body to `lidars[info->handle]`.  The queue pool is never
touched by this callback. -/
def OnDeviceChange (s : SystemState) (info : DeviceInfo) (ev : DeviceEvent) : SystemState :=
  if info.handle ≥ kMaxLidarCount then s
  else
    { s with lidars := fun i =>
        if i = info.handle then OnDeviceChangeSlot (s.lidars info.handle) info ev
        else s.lidars i }

theorem OnDeviceChange_lidars_at (s : SystemState) (info : DeviceInfo) (ev : DeviceEvent)
    (hlt : info.handle < kMaxLidarCount) :
    (OnDeviceChange s info ev).lidars info.handle
      = OnDeviceChangeSlot (s.lidars info.handle) info ev := by
  unfold OnDeviceChange
  rw [if_neg (by omega)]
  simp

theorem OnDeviceChange_lidars_other (s : SystemState) (info : DeviceInfo) (ev : DeviceEvent)
    (j : Nat) (hj : j ≠ info.handle) :
    (OnDeviceChange s info ev).lidars j = s.lidars j := by
  unfold OnDeviceChange
  by_cases hge : info.handle ≥ kMaxLidarCount
  · rw [if_pos hge]
  · rw [if_neg hge]
    simp [hj]

theorem OnDeviceChange_queues (s : SystemState) (info : DeviceInfo) (ev : DeviceEvent) :
    (OnDeviceChange s info ev).queues = s.queues := by
  unfold OnDeviceChange
  by_cases hge : info.handle ≥ kMaxLidarCount
  · rw [if_pos hge]
  · rw [if_neg hge]

/-- A disconnect notification only rewrites the slot's connection state. -/
theorem OnDeviceChangeSlot_disconnect (d : DeviceItem) (info : DeviceInfo) :
    OnDeviceChangeSlot d info DeviceEvent.Disconnect
      = { d with device_state := DeviceState.Disconnect } := by
  unfold OnDeviceChangeSlot
  simp

/-- A connect notification on a Disconnected slot whose info reports a
normal working state and zero status code starts sampling in the same
handler call. -/
theorem OnDeviceChangeSlot_connect_normal (d : DeviceItem) (info : DeviceInfo)
    (hd : d.device_state = DeviceState.Disconnect)
    (hnorm : info.state = LidarState.Normal) (hcode : info.status_code = 0) :
    (OnDeviceChangeSlot d info DeviceEvent.Connect).device_state = DeviceState.Sampling := by
  unfold OnDeviceChangeSlot
  simp [hd, hnorm, hcode]

/-- C7: a Disconnect event for an assigned in-range handle puts the slot
into Disconnected regardless of its prior state; a subsequent Connect
event whose device info reports the normal working state and a zero
status code puts the slot into Sampling within that one handler call. -/
theorem C7_disconnect_then_connect_samples (s : SystemState) (info info2 : DeviceInfo)
    (hlt : info.handle < kMaxLidarCount)
    (hsame : info2.handle = info.handle)
    (hnorm : info2.state = LidarState.Normal)
    (hcode : info2.status_code = 0) :
    ((OnDeviceChange s info DeviceEvent.Disconnect).lidars info.handle).device_state
      = DeviceState.Disconnect ∧
    ((OnDeviceChange (OnDeviceChange s info DeviceEvent.Disconnect) info2
        DeviceEvent.Connect).lidars info.handle).device_state = DeviceState.Sampling := by
  have h1 : ((OnDeviceChange s info DeviceEvent.Disconnect).lidars info.handle).device_state
      = DeviceState.Disconnect := by
    rw [OnDeviceChange_lidars_at s info DeviceEvent.Disconnect hlt,
      OnDeviceChangeSlot_disconnect]
  refine ⟨h1, ?_⟩
  have h2 : info2.handle < kMaxLidarCount := by omega
  rw [← hsame]
  rw [OnDeviceChange_lidars_at (OnDeviceChange s info DeviceEvent.Disconnect) info2
    DeviceEvent.Connect h2]
  apply OnDeviceChangeSlot_connect_normal _ info2 _ hnorm hcode
  rw [hsame]
  exact h1

/-- A Sampling device slot at handle 3 with nonzero statistics. -/
def busyDevice : DeviceItem :=
  ⟨3, DeviceState.Sampling, ⟨3, LidarState.Error, 5, 0, DeviceType.Mid40⟩, ⟨11, 2, 330⟩⟩

/-- A system whose slots all hold `busyDevice` over empty queues. -/
def busySystem : SystemState := ⟨fun _ => busyDevice, fun _ => initQueue⟩

/-- Disconnect notification for handle 3. -/
def disconnectInfo : DeviceInfo := ⟨3, LidarState.Unknown, 9, 0, DeviceType.Mid40⟩

/-- Connect notification for handle 3 reporting normal state, code 0. -/
def reconnectInfo : DeviceInfo := ⟨3, LidarState.Normal, 0, 0, DeviceType.Mid40⟩

/-- Witness for C7 at handle 3: Disconnect on a Sampling slot yields
Disconnected, and the follow-up normal Connect yields Sampling. -/
theorem C7_witness :
    ((OnDeviceChange busySystem disconnectInfo DeviceEvent.Disconnect).lidars
        disconnectInfo.handle).device_state = DeviceState.Disconnect ∧
    ((OnDeviceChange (OnDeviceChange busySystem disconnectInfo DeviceEvent.Disconnect)
        reconnectInfo DeviceEvent.Connect).lidars disconnectInfo.handle).device_state
      = DeviceState.Sampling :=
  C7_disconnect_then_connect_samples busySystem disconnectInfo reconnectInfo
    (by decide) (by decide) (by decide) (by decide)

/-- C10: a Disconnect event mutates only the slot's connection state: the
queue pool is untouched (so every ring buffer keeps its contents,
`rd_idx` and `wr_idx`), the slot's stored info and loss statistics are
unchanged, every other slot is unchanged, and a later poll cycle sees
exactly the same queues — buffered points are still published once the
threshold is met. -/
theorem C10_disconnect_preserves_queues_and_statistics (s : SystemState)
    (info : DeviceInfo) (hlt : info.handle < kMaxLidarCount) :
    (OnDeviceChange s info DeviceEvent.Disconnect).queues = s.queues ∧
    ((OnDeviceChange s info DeviceEvent.Disconnect).lidars info.handle).device_state
      = DeviceState.Disconnect ∧
    ((OnDeviceChange s info DeviceEvent.Disconnect).lidars info.handle).info
      = (s.lidars info.handle).info ∧
    ((OnDeviceChange s info DeviceEvent.Disconnect).lidars info.handle).statistic_info
      = (s.lidars info.handle).statistic_info ∧
    (∀ j, j ≠ info.handle →
      (OnDeviceChange s info DeviceEvent.Disconnect).lidars j = s.lidars j) ∧
    (∀ i, PollSlot ((OnDeviceChange s info DeviceEvent.Disconnect).queues i)
      = PollSlot (s.queues i)) := by
  have hq := OnDeviceChange_queues s info DeviceEvent.Disconnect
  have hslot : (OnDeviceChange s info DeviceEvent.Disconnect).lidars info.handle
      = { s.lidars info.handle with device_state := DeviceState.Disconnect } := by
    rw [OnDeviceChange_lidars_at s info DeviceEvent.Disconnect hlt,
      OnDeviceChangeSlot_disconnect]
  refine ⟨hq, by rw [hslot], by rw [hslot], by rw [hslot],
    fun j hj => OnDeviceChange_lidars_other s info DeviceEvent.Disconnect j hj,
    fun i => by rw [hq]⟩

/-- Witness for C10 at handle 3 of the busy system. -/
theorem C10_witness :
    (OnDeviceChange busySystem disconnectInfo DeviceEvent.Disconnect).queues
      = busySystem.queues ∧
    ((OnDeviceChange busySystem disconnectInfo DeviceEvent.Disconnect).lidars
        disconnectInfo.handle).statistic_info
      = (busySystem.lidars disconnectInfo.handle).statistic_info ∧
    (∀ i, PollSlot ((OnDeviceChange busySystem disconnectInfo
        DeviceEvent.Disconnect).queues i) = PollSlot (busySystem.queues i)) :=
  have h := C10_disconnect_preserves_queues_and_statistics busySystem disconnectInfo
    (by decide)
  ⟨h.1, h.2.2.2.1, h.2.2.2.2.2⟩
